import Mathlib

/-
Verification of the standings / schedule pipeline of the nhl-dashboard
repository (src/app.py, src/getGames.py) against its design document.

The Python sources are shallowly embedded: CSV rows and JSON records become
structures of Option-valued fields (None = absent key), Python int() becomes
an Option Int parser, dictionaries keyed by strings become insertion-ordered
association lists (Python dicts preserve insertion order), and float win
percentages become rationals (wins and games are small naturals, and IEEE
division is correctly rounded, so comparisons of such quotients agree with
the rational comparisons).
-/

namespace NHLDash

/-! ### Python primitive helpers -/

/-- Truthiness of an optional string: Python treats None and the empty
string as falsy. -/
def falsyS (v : Option String) : Bool :=
  match v with
  | none => true
  | some s => s = ""

/-- Embedding of the Python expression `x or d` where x is an optional
string and d a string default. -/
def orStr (x : Option String) (d : String) : String :=
  match x with
  | none => d
  | some s => if s = "" then d else s

/-- Embedding of `x or y` on two optional strings (the result may itself be
None, as in `info.get("name") or team_raw.get("name")` in build_team). -/
def pyOrOpt (x y : Option String) : Option String :=
  if falsyS x then y else x

/-- Value of a nonempty all-digit character list, None otherwise. -/
def digitsVal (cs : List Char) : Option Nat :=
  if cs ≠ [] ∧ cs.all Char.isDigit then
    some (cs.foldl (fun n c => 10 * n + (c.toNat - 48)) 0)
  else none

/-- Whitespace stripping on a character list, from both ends. -/
def trimChars (cs : List Char) : List Char :=
  ((cs.dropWhile Char.isWhitespace).reverse.dropWhile
    Char.isWhitespace).reverse

/-- Embedding of Python int(s) on a string: surrounding whitespace is
stripped, an optional sign precedes a nonempty digit run.  (Python also
accepts underscore digit separators, which never occur in this data.) -/
def pyInt (s : String) : Option Int :=
  match trimChars s.data with
  | '+' :: rest => (digitsVal rest).map Int.ofNat
  | '-' :: rest => (digitsVal rest).map (fun n => -(n : Int))
  | cs => (digitsVal cs).map Int.ofNat

/-- Accumulator pass splitting a character list at whitespace runs, the
current word held in reverse. -/
def splitWsAux : List Char → List Char → List (List Char)
  | [], cur => if cur = [] then [] else [cur.reverse]
  | c :: cs, cur =>
    if c.isWhitespace then
      if cur = [] then splitWsAux cs []
      else cur.reverse :: splitWsAux cs []
    else splitWsAux cs (c :: cur)

/-- Embedding of Python str.split() with no argument: split on whitespace
runs, dropping empty pieces. -/
def pySplit (s : String) : List String :=
  (splitWsAux s.data []).map String.mk

/-- Embedding of safe_int (src/app.py lines 41-47) applied to an optional
string with the default None: int() of a string parses or fails, int(None)
raises TypeError, both failures return the default. -/
def safe_int (v : Option String) : Option Int :=
  match v with
  | none => none
  | some s => pyInt s

/-! ### compute_streak (src/app.py lines 50-62) -/

/-- Embedding of compute_streak: given the list of result strings, return
the empty string if it is empty, otherwise a sign determined by the last
element followed by the length of the run of elements equal to the last
one, counted backward from the end. -/
def compute_streak (results : List String) : String :=
  match results.getLast? with
  | none => ""
  | some last =>
    let count := (results.reverse.takeWhile (fun r => r = last)).length
    let sign := if last = "W" then "+" else "-"
    sign ++ toString count

/-! ### CSV rows and the per-game result extraction
(src/app.py lines 95-195 inside compute_standings_from_csv) -/

/-- One row of the csv.DictReader output: each named column yields a string
value, or None when the column is short on that row.  row.get(key) of an
undeclared key also yields None. -/
structure Row where
  GAME_ID : Option String := none
  TEAM_ID : Option String := none
  TEAM_ABBREVIATION : Option String := none
  TEAM_NAME : Option String := none
  MATCHUP : Option String := none
  GOALS : Option String := none
deriving DecidableEq, Repr

/-- One emitted result event, the effect of one iteration of the loop at
src/app.py lines 166-195: team identity, home flag and the result string
(W or L) recorded for that team. -/
structure GameResultEvent where
  teamId : String
  teamCode : String
  teamName : Option String
  isHome : Bool
  outcome : String
deriving DecidableEq, Repr

/-- Embedding of the matchup-based home/away code inference (src/app.py
lines 136-147): with an at-sign among the tokens the first token is the
away code and the last the home code; otherwise with at least three tokens
the first is home and the last away; otherwise fall back to the two rows
own abbreviation fields (home from the first row, away from the second).
Returns (home_code, away_code). -/
def inferCodes (a b : Row) (parts : List String) :
    Option String × Option String :=
  if "@" ∈ parts then
    (some ((parts.getLast?).getD ""), some ((parts.head?).getD ""))
  else if 3 ≤ parts.length then
    (some ((parts.head?).getD ""), some ((parts.getLast?).getD ""))
  else
    (a.TEAM_ABBREVIATION, b.TEAM_ABBREVIATION)

/-- Embedding of rows_by_code.get(code) (src/app.py lines 149-151): the
dict comprehension keys each of the two rows by its abbreviation field,
the second row overwriting the first on a duplicate key. -/
def rowsByCodeGet (a b : Row) (code : Option String) : Option Row :=
  if b.TEAM_ABBREVIATION = code then some b
  else if a.TEAM_ABBREVIATION = code then some a
  else none

/-- Resolved (home_row, away_row) pair for a two-row game group
(src/app.py lines 136-151).  A DictReader row is a nonempty dict, hence
truthy, so the expression get(...) or a reduces to getD a. -/
def resolvedRows (a b : Row) : Row × Row :=
  let matchup := orStr a.MATCHUP (orStr b.MATCHUP "")
  let parts := pySplit matchup
  let codes := inferCodes a b parts
  ((rowsByCodeGet a b codes.1).getD a, (rowsByCodeGet a b codes.2).getD b)

/-- Embedding of int(row.get("GOALS") or 0) (src/app.py lines 154-155):
a missing or empty field becomes int(0) = 0, a nonempty string is parsed
and may fail. -/
def parseScore (g : Option String) : Option Int :=
  match g with
  | none => some 0
  | some s => if s = "" then some 0 else pyInt s

/-- Identity fields required for a side to be recorded (src/app.py lines
170-174): the row is dropped when TEAM_ID or TEAM_ABBREVIATION is falsy. -/
def falsyIdent (row : Row) : Bool :=
  falsyS row.TEAM_ID || falsyS row.TEAM_ABBREVIATION

/-- Event contributed by one side of a game, or nothing when the side
lacks identity fields (the continue at src/app.py line 174). -/
def sideEvent (row : Row) (isHome : Bool) (result : String) :
    List GameResultEvent :=
  if falsyIdent row then []
  else [{ teamId := row.TEAM_ID.getD "",
          teamCode := row.TEAM_ABBREVIATION.getD "",
          teamName := row.TEAM_NAME,
          isHome := isHome,
          outcome := result }]

/-- Events emitted for one two-row game group (src/app.py lines 135-195):
resolve the home and away rows, parse both scores (a ValueError discards
the pair), discard ties, then record each side that carries identity. -/
def eventsOfPair (a b : Row) : List GameResultEvent :=
  match parseScore (resolvedRows a b).1.GOALS,
      parseScore (resolvedRows a b).2.GOALS with
  | some homePts, some awayPts =>
    if homePts > awayPts then
      sideEvent (resolvedRows a b).1 true "W"
        ++ sideEvent (resolvedRows a b).2 false "L"
    else if homePts < awayPts then
      sideEvent (resolvedRows a b).1 true "L"
        ++ sideEvent (resolvedRows a b).2 false "W"
    else []
  | none, _ => []
  | some _, none => []


/-! ### Team statistics accumulator (src/app.py lines 105-195) -/

/-- Embedding of CONF_BY_TRICODE (src/app.py lines 27-35). -/
def CONF_BY_TRICODE : List (String × String) :=
  [("BOS", "East"), ("BUF", "East"), ("DET", "East"), ("FLA", "East"),
   ("MTL", "East"), ("OTT", "East"), ("TBL", "East"), ("TOR", "East"),
   ("CAR", "East"), ("CBJ", "East"), ("NJD", "East"), ("NYI", "East"),
   ("NYR", "East"), ("PHI", "East"), ("PIT", "East"), ("WSH", "East"),
   ("ARI", "West"), ("CGY", "West"), ("CHI", "West"), ("COL", "West"),
   ("DAL", "West"), ("EDM", "West"), ("LAK", "West"), ("MIN", "West"),
   ("NSH", "West"), ("SJS", "West"), ("SEA", "West"), ("STL", "West"),
   ("VAN", "West"), ("VGK", "West"), ("WPG", "West"), ("ANA", "West")]

/-- Conference lookup with empty-string default (src/app.py line 110). -/
def confOf (tricode : String) : String :=
  (CONF_BY_TRICODE.lookup tricode).getD ""

/-- Accumulator entry created by get_stats (src/app.py lines 107-129). -/
structure Stats where
  team_id : Option Int
  tricode : String
  team : Option String
  conf : String
  wins : Nat
  losses : Nat
  home_w : Nat
  home_l : Nat
  away_w : Nat
  away_l : Nat
  results : List String
  home_results : List String
  away_results : List String
deriving DecidableEq, Repr

/-- Fresh Stats entry for a first event of a team (src/app.py lines
109-128): identity fields are filled, every counter starts at zero. -/
def initStats (e : GameResultEvent) : Stats :=
  { team_id := safe_int (some e.teamId),
    tricode := e.teamCode,
    team := e.teamName,
    conf := confOf e.teamCode,
    wins := 0, losses := 0,
    home_w := 0, home_l := 0, away_w := 0, away_l := 0,
    results := [], home_results := [], away_results := [] }

/-- Counter and sequence updates performed by the loop body for one event
(src/app.py lines 178-195). -/
def updStats (s : Stats) (e : GameResultEvent) : Stats :=
  let s :=
    if e.outcome = "W" then
      { s with wins := s.wins + 1,
               home_w := if e.isHome then s.home_w + 1 else s.home_w,
               away_w := if e.isHome then s.away_w else s.away_w + 1 }
    else
      { s with losses := s.losses + 1,
               home_l := if e.isHome then s.home_l + 1 else s.home_l,
               away_l := if e.isHome then s.away_l else s.away_l + 1 }
  { s with
      results := s.results ++ [e.outcome],
      home_results :=
        if e.isHome then s.home_results ++ [e.outcome] else s.home_results,
      away_results :=
        if e.isHome then s.away_results else s.away_results ++ [e.outcome] }

/-- The team_stats dict as an insertion-ordered association list keyed by
the raw TEAM_ID string; applying one event updates the existing entry in
place or appends a fresh one (get_stats followed by the loop body). -/
def applyEvent : List (String × Stats) → GameResultEvent →
    List (String × Stats)
  | [], e => [(e.teamId, updStats (initStats e) e)]
  | (k, s) :: ts, e =>
    if k = e.teamId then (k, updStats s e) :: ts
    else (k, s) :: applyEvent ts e

/-- Processing of one game group (src/app.py lines 131-195): groups that
are not exactly a pair of rows are skipped, otherwise the pair's events
are folded into the accumulator. -/
def processGame (ts : List (String × Stats)) (rows : List Row) :
    List (String × Stats) :=
  match rows with
  | [a, b] => (eventsOfPair a b).foldl applyEvent ts
  | _ => ts

/-- Row grouping by GAME_ID (src/app.py lines 96-103): rows with a falsy
game id are skipped, the rest are appended to their game's list, games in
first-appearance order. -/
def addToGroup (gs : List (String × List Row)) (gid : String) (r : Row) :
    List (String × List Row) :=
  match gs with
  | [] => [(gid, [r])]
  | (k, rs) :: rest =>
    if k = gid then (k, rs ++ [r]) :: rest
    else (k, rs) :: addToGroup rest gid r

/-- All game groups of a CSV row list, in first-appearance order. -/
def groupByGid (rows : List Row) : List (String × List Row) :=
  rows.foldl
    (fun gs r =>
      match r.GAME_ID with
      | none => gs
      | some gid => if gid = "" then gs else addToGroup gs gid r)
    []

/-- Final accumulator after all game groups are processed (src/app.py
lines 131-195). -/
def teamStatsOf (rows : List Row) : List (String × Stats) :=
  (groupByGid rows).foldl (fun ts g => processGame ts g.2) []

/-- Total wins over the accumulator. -/
def sumWins (ts : List (String × Stats)) : Nat :=
  (ts.map (fun p => p.2.wins)).sum

/-- Total losses over the accumulator. -/
def sumLosses (ts : List (String × Stats)) : Nat :=
  (ts.map (fun p => p.2.losses)).sum

/-- Per-team balance: wins plus losses is the length of the result
sequence. -/
def statsBalanced (s : Stats) : Prop :=
  s.wins + s.losses = s.results.length

/-! ### Standings rows, sort order and the endpoint
(src/app.py lines 197-233 and 286-290) -/

/-- Output row built from one Stats entry (src/app.py lines 197-223).
The win percentage wins/(wins+losses) is modelled as a rational. -/
structure StandingsRow where
  team_id : Option Int
  tricode : String
  team : Option String
  city : String
  name : Option String
  conf : String
  wins : Nat
  losses : Nat
  win_pct : ℚ
  home_w : Nat
  home_l : Nat
  road_w : Nat
  road_l : Nat
  streak : String
  streak_home : String
  streak_away : String
deriving DecidableEq, Repr

/-- Construction of one StandingsRow (src/app.py lines 197-223). -/
def rowOfStats (s : Stats) : StandingsRow :=
  let games_played := s.wins + s.losses
  { team_id := s.team_id,
    tricode := s.tricode,
    team := s.team,
    city := "",
    name := s.team,
    conf := s.conf,
    wins := s.wins,
    losses := s.losses,
    win_pct := if games_played = 0 then 0 else (s.wins : ℚ) / games_played,
    home_w := s.home_w, home_l := s.home_l,
    road_w := s.away_w, road_l := s.away_l,
    streak := compute_streak s.results,
    streak_home := compute_streak s.home_results,
    streak_away := compute_streak s.away_results }

/-- Code-point lexicographic comparison of character lists, the order
Python uses to compare strings. -/
def charListLe : List Char → List Char → Bool
  | [], _ => true
  | _ :: _, [] => false
  | a :: as, b :: bs =>
    if a < b then true else if b < a then false else charListLe as bs

/-- String comparison as Python performs it (lexicographic on code
points). -/
def strLe (s t : String) : Bool :=
  charListLe s.data t.data

/-- Sort key name: the expression r["team"] or "" at src/app.py line 226
(a missing name sorts as the empty string). -/
def nameOf (r : StandingsRow) : String :=
  r.team.getD ""

/-- Ordering induced by the Python sort key
(-win_pct, -wins, team or "") at src/app.py lines 225-227: win percentage
descending, then wins descending, then name ascending. -/
def keyLe (r s : StandingsRow) : Bool :=
  if s.win_pct < r.win_pct then true
  else if r.win_pct = s.win_pct then
    if s.wins < r.wins then true
    else if r.wins = s.wins then strLe (nameOf r) (nameOf s)
    else false
  else false

/-- Embedding of compute_standings_from_csv (src/app.py lines 84-233).
The file-selection outcome is the input: None models the early return when
select_csv_path reports a warning (primary CSV missing), Some rows models
a readable primary CSV with the given parsed rows.  In the readable case
the code reaches the sort and returns no warnings. -/
def compute_standings_from_csv (input : Option (List Row)) :
    List StandingsRow × List String :=
  match input with
  | none => ([], ["CSV não encontrado"])
  | some rows =>
    (((teamStatsOf rows).map (fun p => rowOfStats p.2)).mergeSort keyLe, [])

/-- Response shape of the standings endpoint. -/
structure ApiResp where
  ok : Bool
  rows : List StandingsRow
  warnings : List String
deriving DecidableEq, Repr

/-- Embedding of api_standings (src/app.py lines 286-290): ok is the
truthiness of the rows list. -/
def api_standings (input : Option (List Row)) : ApiResp :=
  let rw := compute_standings_from_csv input
  { ok := !rw.1.isEmpty, rows := rw.1, warnings := rw.2 }

/-! ### Schedule pipeline (src/getGames.py) -/

/-- Entry of the team map built by get_team_map (src/getGames.py lines
35-44). -/
structure TeamInfo where
  tricode : Option String := none
  name : Option String := none
  city : Option String := none
  full : Option String := none
deriving DecidableEq, Repr

/-- Raw per-side record handed to build_team: the upstream team object
merged with the side's score and leagueRecord (src/getGames.py lines
113-120).  recWins and recLosses are leagueRecord.get("wins") and
leagueRecord.get("losses"). -/
structure RawTeam where
  id : Option Int := none
  name : Option String := none
  score : Option Int := none
  recWins : Option Int := none
  recLosses : Option Int := none
deriving DecidableEq, Repr

/-- Output of build_team (src/getGames.py lines 53-66). -/
structure TeamOut where
  teamId : Option Int
  teamTricode : Option String
  teamName : Option String
  teamCity : Option String
  wins : Option Int
  losses : Option Int
  score : Option Int
  tricode : Option String
  name : Option String
  city : Option String
  record : String
deriving DecidableEq, Repr

/-- Embedding of build_team (src/getGames.py lines 47-66): the record
string is the f-string wins-losses exactly when both counts are not None,
and the empty string otherwise. -/
def build_team (team_raw : RawTeam)
    (team_map : List (Option Int × TeamInfo)) : TeamOut :=
  let info := (team_map.lookup team_raw.id).getD {}
  let wins := team_raw.recWins
  let losses := team_raw.recLosses
  { teamId := team_raw.id,
    teamTricode := info.tricode,
    teamName := pyOrOpt info.name team_raw.name,
    teamCity := info.city,
    wins := wins,
    losses := losses,
    score := team_raw.score,
    tricode := info.tricode,
    name := pyOrOpt info.name team_raw.name,
    city := info.city,
    record :=
      match wins, losses with
      | some w, some l => toString w ++ "-" ++ toString l
      | _, _ => "" }

/-- Raw schedule entry for one game as read by fetch_games_for_date
(src/getGames.py lines 99-120): statusCode and detailedState come from the
nested status object, home and away are the merged side records. -/
structure RawGame where
  statusCode : Option String := none
  detailedState : Option String := none
  gameDate : Option String := none
  gamePk : Option Int := none
  home : RawTeam := {}
  away : RawTeam := {}
deriving DecidableEq, Repr

/-- Embedding of the status mapping (src/getGames.py lines 100-111): the
status code defaults to the string 0 when absent; codes 1 and 2 map to 1
(scheduled), codes 3 and 4 map to 2 (live), everything else maps to 3
(final/other). -/
def statusOf (g : RawGame) : Nat :=
  let c := g.statusCode.getD "0"
  if c = "1" ∨ c = "2" then 1
  else if c = "3" ∨ c = "4" then 2
  else 3

/-- Embedding of Python str(x) on an optional integer, as applied to
game_pk (src/getGames.py line 126): str(None) is the string None. -/
def pyStr (x : Option Int) : String :=
  match x with
  | none => "None"
  | some n => toString n

/-- Normalized snapshot appended for one game (src/getGames.py lines
124-135). -/
structure GameOut where
  game_id : String
  status : Nat
  status_text : Option String
  period : Option Int
  clock : Option String
  start_time_utc : Option String
  home : TeamOut
  away : TeamOut
deriving DecidableEq, Repr

/-- Embedding of fetch_games_for_date (src/getGames.py lines 82-137).
The network outcome is the input: None models a failed request (the
except branch returns an empty list, printing to the console only), Some
games models a successful response carrying the listed games of the first
date block (an absent or empty dates array gives Some []).  The linescore
argument models fetch_linescore, already reduced to its result pair. -/
def fetch_games_for_date (resp : Option (List RawGame))
    (team_map : List (Option Int × TeamInfo))
    (linescore : Option Int → Option Int × Option String) : List GameOut :=
  match resp with
  | none => []
  | some games_raw =>
    games_raw.map (fun g =>
      { game_id := pyStr g.gamePk,
        status := statusOf g,
        status_text := g.detailedState,
        period := (linescore g.gamePk).1,
        clock := (linescore g.gamePk).2,
        start_time_utc := g.gameDate,
        home := build_team g.home team_map,
        away := build_team g.away team_map })

/-- Output shape of fetch_games (src/getGames.py lines 157-164). -/
structure GamesOutput where
  ok : Bool
  live_games : List GameOut
  today_upcoming : List GameOut
  tomorrow_upcoming : List GameOut
  warnings : List String
  generated_at_utc : String
deriving DecidableEq, Repr

/-- Embedding of fetch_games (src/getGames.py lines 140-164): both days
are fetched, games are bucketed by status, and the literal dictionary at
lines 157-164 is returned with ok := True and warnings := []. -/
def fetch_games (now_iso : String)
    (team_map : List (Option Int × TeamInfo))
    (todayResp tomorrowResp : Option (List RawGame))
    (linescore : Option Int → Option Int × Option String) : GamesOutput :=
  let today_games := fetch_games_for_date todayResp team_map linescore
  let tomorrow_games := fetch_games_for_date tomorrowResp team_map linescore
  { ok := true,
    live_games := today_games.filter (fun g => g.status = 2),
    today_upcoming := today_games.filter (fun g => g.status = 1),
    tomorrow_upcoming := tomorrow_games.filter (fun g => g.status = 1),
    warnings := [],
    generated_at_utc := now_iso }


/-- Concrete rows used by the counterexamples and witnesses: game 7 seen
from the home side (Alphas, two goals)... -/
def rowHomeA : Row :=
  { GAME_ID := some "7", TEAM_ID := some "10",
    TEAM_ABBREVIATION := some "AAA", TEAM_NAME := some "Alphas",
    MATCHUP := some "BBB @ AAA", GOALS := some "2" }

/-- The away side of game 7 (Betas, one goal) with full identity. -/
def rowAwayB : Row :=
  { GAME_ID := some "7", TEAM_ID := some "20",
    TEAM_ABBREVIATION := some "BBB", TEAM_NAME := some "Betas",
    MATCHUP := some "BBB @ AAA", GOALS := some "1" }

/-- The away side of game 7 with its TEAM_ID column missing. -/
def rowAwayNoId : Row :=
  { GAME_ID := some "7",
    TEAM_ABBREVIATION := some "BBB", TEAM_NAME := some "Betas",
    MATCHUP := some "BBB @ AAA", GOALS := some "1" }

/-! ## Theorems -/

example : pySplit " BBB @  AAA " = ["BBB", "@", "AAA"] := by decide

example : pyInt " -12 " = some (-12) := by decide

example : pyInt "N/A" = none := by decide

example : compute_streak ["W", "W", "L", "W", "W", "W"] = "+3" := by decide
example : compute_streak ["L", "L", "W", "L"] = "-1" := by decide
example : compute_streak [] = "" := by decide

/-- Helper: takeWhile over a run of copies of a stopped by a different
head. -/
theorem takeWhile_replicate_append (last : String) (n : Nat) (rest : List String)
    (hrest : rest = [] ∨ rest.head? ≠ some last) :
    (List.replicate n last ++ rest).takeWhile (fun r => r = last)
      = List.replicate n last := by
  induction n with
  | zero =>
    simp only [List.replicate, List.nil_append]
    cases rest with
    | nil => simp
    | cons x xs =>
      rcases hrest with h | h
      · cases h
      · simp only [List.head?] at h
        have hx : x ≠ last := by
          intro he; exact h (by rw [he])
        simp [List.takeWhile, hx]
  | succ m ih =>
    simp only [List.replicate, List.cons_append, List.takeWhile]
    simp [ih]

/-- The reverse of a list ending in a maximal block of n copies of last
begins with n copies of last followed by something that is not last. -/
theorem reverse_suffix_block (pre : List String) (last : String) (n : Nat)
    (hpre : pre = [] ∨ pre.getLast? ≠ some last) :
    (pre ++ List.replicate n last).reverse
      = List.replicate n last ++ pre.reverse ∧
      (pre.reverse = [] ∨ pre.reverse.head? ≠ some last) := by
  constructor
  · rw [List.reverse_append, List.reverse_replicate]
  · rcases hpre with h | h
    · left; simp [h]
    · right; rwa [List.head?_reverse]

/-- C1.  compute_streak returns the empty string on the empty list; on any
nonempty list of W/L results decomposed as a prefix (not ending in the last
element) followed by the maximal block of n final copies of the last
element, it returns a plus sign and n when the last element is W and a
minus sign and n when it is L; in particular [W,W,L,W,W,W] gives +3,
[L,L,W,L] gives -1 and [] gives the empty string. -/
theorem compute_streak_spec :
    compute_streak [] = "" ∧
    (∀ (pre : List String) (last : String) (n : Nat),
      1 ≤ n →
      (last = "W" ∨ last = "L") →
      (pre = [] ∨ pre.getLast? ≠ some last) →
      compute_streak (pre ++ List.replicate n last)
        = (if last = "W" then "+" else "-") ++ toString n) ∧
    compute_streak ["W", "W", "L", "W", "W", "W"] = "+3" ∧
    compute_streak ["L", "L", "W", "L"] = "-1" := by
  refine ⟨rfl, ?_, by decide, by decide⟩
  intro pre last n hn _ hpre
  obtain ⟨hrev, hhead⟩ := reverse_suffix_block pre last n hpre
  have hlast : (pre ++ List.replicate n last).getLast? = some last := by
    rw [List.getLast?_append_of_ne_nil]
    · cases n with
      | zero => cases hn
      | succ m => simp [List.getLast?_replicate]
    · intro h
      have := congrArg List.length h
      simp [List.length_replicate] at this
      omega
  unfold compute_streak
  rw [hlast]
  simp only
  rw [hrev, takeWhile_replicate_append last n pre.reverse hhead,
    List.length_replicate]

/-- Witness for C1 at a concrete input: the six-game list W W L W W W
decomposes with prefix W W L and a final block of three W, and the streak
is the string +3. -/
theorem compute_streak_spec_witness :
    compute_streak (["W", "W", "L"] ++ List.replicate 3 "W")
      = (if "W" = "W" then "+" else "-") ++ toString 3 :=
  compute_streak_spec.2.1 ["W", "W", "L"] "W" 3 (by decide) (Or.inl rfl)
    (by decide)

example :
    eventsOfPair
      { GAME_ID := some "1", TEAM_ID := some "10",
        TEAM_ABBREVIATION := some "AAA", TEAM_NAME := some "Alphas",
        MATCHUP := some "BBB @ AAA", GOALS := some "2" }
      { GAME_ID := some "1", TEAM_ID := some "20",
        TEAM_ABBREVIATION := some "BBB", TEAM_NAME := some "Betas",
        MATCHUP := some "BBB @ AAA", GOALS := some "1" }
      = [{ teamId := "10", teamCode := "AAA", teamName := some "Alphas",
           isHome := true, outcome := "W" },
         { teamId := "20", teamCode := "BBB", teamName := some "Betas",
           isHome := false, outcome := "L" }] := by decide

/-! ### Claims about the schedule pipeline -/

/-- C6 counterexample.  A game whose upstream status code is the
unrecognized value 99 is assigned status 3 (final/other), not the
Scheduled value 1 the claim requires. -/
theorem statusOf_unrecognized_counterexample :
    statusOf { statusCode := some "99" } = 3 ∧
      statusOf { statusCode := some "99" } ≠ 1 := by
  constructor
  · rfl
  · decide

/-- C6 amended.  Every raw schedule record whose status code is not one of
the recognized values 1, 2, 3, 4 — including a record with no status code
at all, which defaults to the string 0 — is assigned the canonical status
3 (Final/Other), not Scheduled and not Live. -/
theorem statusOf_unrecognized_default (g : RawGame) (c : String)
    (hc : g.statusCode = some c)
    (h1 : c ≠ "1") (h2 : c ≠ "2") (h3 : c ≠ "3") (h4 : c ≠ "4") :
    statusOf g = 3 ∧ (∀ g' : RawGame, g'.statusCode = none → statusOf g' = 3) := by
  constructor
  · unfold statusOf
    rw [hc]
    simp [Option.getD, h1, h2, h3, h4]
  · intro g' hg'
    unfold statusOf
    rw [hg']
    simp [Option.getD]

/-- Witness for the amended C6 at the concrete unrecognized code 99. -/
theorem statusOf_unrecognized_default_witness :
    statusOf { statusCode := some "99" } = 3 ∧
      (∀ g' : RawGame, g'.statusCode = none → statusOf g' = 3) :=
  statusOf_unrecognized_default { statusCode := some "99" } "99" rfl
    (by decide) (by decide) (by decide) (by decide)

/-- C7 counterexample.  When the fetch for today fails (the request raises
and fetch_games_for_date returns an empty list), fetch_games still reports
ok = true with an empty warnings list, contradicting the claim that ok is
false after a failed day fetch. -/
theorem fetch_games_failed_day_counterexample :
    (fetch_games "2024-01-01T00:00:00+00:00" [] none (some [])
        (fun _ => (none, none))).ok = true ∧
      (fetch_games "2024-01-01T00:00:00+00:00" [] none (some [])
        (fun _ => (none, none))).warnings = [] := by
  constructor <;> rfl

/-- C7 amended.  fetch_games always returns ok = true and an empty
warnings list, whatever the outcome of the two day fetches and of the
per-game linescore enrichment; a failed day fetch degrades to empty game
buckets and is never reflected in ok or warnings. -/
theorem fetch_games_ok_always (now_iso : String)
    (team_map : List (Option Int × TeamInfo))
    (todayResp tomorrowResp : Option (List RawGame))
    (linescore : Option Int → Option Int × Option String) :
    (fetch_games now_iso team_map todayResp tomorrowResp linescore).ok
        = true ∧
      (fetch_games now_iso team_map todayResp tomorrowResp
        linescore).warnings = [] := by
  constructor <;> rfl

/-- C8.  build_team produces an empty record string exactly when the wins
count or the losses count is missing; when both are present the record is
the wins and losses joined by a hyphen (in particular the empty-record
case never contains a None placeholder). -/
theorem build_team_record_spec (team_raw : RawTeam)
    (team_map : List (Option Int × TeamInfo)) :
    ((build_team team_raw team_map).record = "" ↔
      (team_raw.recWins = none ∨ team_raw.recLosses = none)) ∧
    (∀ w l : Int, team_raw.recWins = some w → team_raw.recLosses = some l →
      (build_team team_raw team_map).record
        = toString w ++ "-" ++ toString l) := by
  constructor
  · constructor
    · intro h
      by_contra hc
      push_neg at hc
      obtain ⟨hw, hl⟩ := hc
      obtain ⟨w, hw⟩ := Option.ne_none_iff_exists'.mp hw
      obtain ⟨l, hl⟩ := Option.ne_none_iff_exists'.mp hl
      unfold build_team at h
      simp only [hw, hl] at h
      have hlen := congrArg String.length h
      rw [String.length_append, String.length_append] at hlen
      have h1 : ("-" : String).length = 1 := rfl
      have h0 : ("" : String).length = 0 := rfl
      omega
    · intro h
      unfold build_team
      rcases h with h | h
      · simp only [h]
      · simp only [h]
        cases team_raw.recWins <;> rfl
  · intro w l hw hl
    unfold build_team
    simp only [hw, hl]

/-- Witness for C8 at concrete inputs: a record with losses missing gives
the empty string, and a 3-2 record formats as 3-2. -/
theorem build_team_record_spec_witness :
    ((build_team { recWins := some 3 } []).record = "" ↔
      (({ recWins := some 3 } : RawTeam).recWins = none ∨
        ({ recWins := some 3 } : RawTeam).recLosses = none)) ∧
      (build_team { recWins := some 3, recLosses := some 2 } []).record
        = toString (3 : Int) ++ "-" ++ toString (2 : Int) :=
  ⟨(build_team_record_spec { recWins := some 3 } []).1,
   (build_team_record_spec { recWins := some 3, recLosses := some 2 } []).2
      3 2 rfl rfl⟩

/-! ### Claims about the result extraction -/

/-- Reduction of eventsOfPair once both resolved scores parse. -/
theorem eventsOfPair_eq_of_scores (a b : Row) (hp ap : Int)
    (h1 : parseScore (resolvedRows a b).1.GOALS = some hp)
    (h2 : parseScore (resolvedRows a b).2.GOALS = some ap) :
    eventsOfPair a b =
      if hp > ap then
        sideEvent (resolvedRows a b).1 true "W"
          ++ sideEvent (resolvedRows a b).2 false "L"
      else if hp < ap then
        sideEvent (resolvedRows a b).1 true "L"
          ++ sideEvent (resolvedRows a b).2 false "W"
      else [] := by
  unfold eventsOfPair
  rw [h1, h2]

/-- C5.  A row pair whose resolved home or away side carries a goals field
that fails integer parsing produces no events, leaves the accumulator of
the enclosing fold untouched (so the remaining pairs are processed
unaffected), and the readable-CSV path records no warning for it. -/
theorem unparsable_score_discards_pair (a b : Row)
    (h : parseScore (resolvedRows a b).1.GOALS = none ∨
         parseScore (resolvedRows a b).2.GOALS = none) :
    eventsOfPair a b = [] ∧
      (∀ ts : List (String × Stats), processGame ts [a, b] = ts) ∧
      (∀ rows : List Row,
        (compute_standings_from_csv (some rows)).2 = []) := by
  have hev : eventsOfPair a b = [] := by
    unfold eventsOfPair
    rcases h with h | h
    · rw [h]
    · rw [h]
      cases parseScore (resolvedRows a b).1.GOALS <;> rfl
  refine ⟨hev, ?_, fun rows => rfl⟩
  intro ts
  show (eventsOfPair a b).foldl applyEvent ts = ts
  rw [hev]
  rfl

/-- Witness for C5: the pair whose away side reports goals N/A produces no
events and leaves an empty accumulator empty. -/
theorem unparsable_score_discards_pair_witness :
    eventsOfPair
        { GAME_ID := some "1", TEAM_ID := some "10",
          TEAM_ABBREVIATION := some "AAA", MATCHUP := some "BBB @ AAA",
          GOALS := some "2" }
        { GAME_ID := some "1", TEAM_ID := some "20",
          TEAM_ABBREVIATION := some "BBB", MATCHUP := some "BBB @ AAA",
          GOALS := some "N/A" } = [] :=
  (unparsable_score_discards_pair
    { GAME_ID := some "1", TEAM_ID := some "10",
      TEAM_ABBREVIATION := some "AAA", MATCHUP := some "BBB @ AAA",
      GOALS := some "2" }
    { GAME_ID := some "1", TEAM_ID := some "20",
      TEAM_ABBREVIATION := some "BBB", MATCHUP := some "BBB @ AAA",
      GOALS := some "N/A" }
    (Or.inr (by decide))).1

/-- Case split for one side's contribution: nothing when the side lacks
identity, a singleton event otherwise. -/
theorem sideEvent_shape (row : Row) (ih : Bool) (res : String) :
    (falsyIdent row = true ∧ sideEvent row ih res = []) ∨
      (falsyIdent row = false ∧ sideEvent row ih res
        = [{ teamId := row.TEAM_ID.getD "",
             teamCode := row.TEAM_ABBREVIATION.getD "",
             teamName := row.TEAM_NAME, isHome := ih, outcome := res }]) := by
  unfold sideEvent
  cases hf : falsyIdent row
  · right
    exact ⟨rfl, by simp⟩
  · left
    exact ⟨rfl, by simp⟩

/-- Shape of the two concatenated side contributions for fixed home and
away results. -/
theorem pairEvents_shape (r1 r2 : Row) (rh ra : String) :
    sideEvent r1 true rh ++ sideEvent r2 false ra = [] ∨
      (∃ e1 e2 : GameResultEvent,
        sideEvent r1 true rh ++ sideEvent r2 false ra = [e1, e2] ∧
        e1.isHome = true ∧ e2.isHome = false ∧
        e1.outcome = rh ∧ e2.outcome = ra) ∨
      (∃ e : GameResultEvent,
        sideEvent r1 true rh ++ sideEvent r2 false ra = [e] ∧
        (falsyIdent r1 = true ∨ falsyIdent r2 = true)) := by
  rcases sideEvent_shape r1 true rh with ⟨hf1, he1⟩ | ⟨hf1, he1⟩ <;>
    rcases sideEvent_shape r2 false ra with ⟨hf2, he2⟩ | ⟨hf2, he2⟩ <;>
    rw [he1, he2]
  · exact Or.inl rfl
  · exact Or.inr (Or.inr
      ⟨{ teamId := r2.TEAM_ID.getD "",
         teamCode := r2.TEAM_ABBREVIATION.getD "",
         teamName := r2.TEAM_NAME, isHome := false, outcome := ra },
       by simp, Or.inl hf1⟩)
  · exact Or.inr (Or.inr
      ⟨{ teamId := r1.TEAM_ID.getD "",
         teamCode := r1.TEAM_ABBREVIATION.getD "",
         teamName := r1.TEAM_NAME, isHome := true, outcome := rh },
       by simp, Or.inr hf2⟩)
  · exact Or.inr (Or.inl
      ⟨{ teamId := r1.TEAM_ID.getD "",
         teamCode := r1.TEAM_ABBREVIATION.getD "",
         teamName := r1.TEAM_NAME, isHome := true, outcome := rh },
       { teamId := r2.TEAM_ID.getD "",
         teamCode := r2.TEAM_ABBREVIATION.getD "",
         teamName := r2.TEAM_NAME, isHome := false, outcome := ra },
       by simp, rfl, rfl, rfl, rfl⟩)

/-- Shared case analysis of eventsOfPair: no events, a full pair of
opposite events, or a single event forced by a side missing identity. -/
theorem eventsOfPair_shape (a b : Row) :
    eventsOfPair a b = [] ∨
      (∃ e1 e2 : GameResultEvent,
        eventsOfPair a b = [e1, e2] ∧
        e1.isHome = true ∧ e2.isHome = false ∧
        ((e1.outcome = "W" ∧ e2.outcome = "L") ∨
          (e1.outcome = "L" ∧ e2.outcome = "W"))) ∨
      (∃ e : GameResultEvent,
        eventsOfPair a b = [e] ∧
        (falsyIdent (resolvedRows a b).1 = true ∨
          falsyIdent (resolvedRows a b).2 = true)) := by
  cases h1 : parseScore (resolvedRows a b).1.GOALS with
  | none =>
    left
    unfold eventsOfPair
    rw [h1]
  | some hp =>
    cases h2 : parseScore (resolvedRows a b).2.GOALS with
    | none =>
      left
      unfold eventsOfPair
      rw [h1, h2]
    | some ap =>
      rw [eventsOfPair_eq_of_scores a b hp ap h1 h2]
      rcases lt_trichotomy hp ap with hlt | heq | hgt
      · rw [if_neg (by omega), if_pos hlt]
        rcases pairEvents_shape (resolvedRows a b).1 (resolvedRows a b).2
            "L" "W" with h | ⟨e1, e2, he, hh1, hh2, ho1, ho2⟩ | ⟨e, he, hf⟩
        · exact Or.inl h
        · exact Or.inr (Or.inl ⟨e1, e2, he, hh1, hh2, Or.inr ⟨ho1, ho2⟩⟩)
        · exact Or.inr (Or.inr ⟨e, he, hf⟩)
      · rw [if_neg (by omega), if_neg (by omega)]
        exact Or.inl rfl
      · rw [if_pos hgt]
        rcases pairEvents_shape (resolvedRows a b).1 (resolvedRows a b).2
            "W" "L" with h | ⟨e1, e2, he, hh1, hh2, ho1, ho2⟩ | ⟨e, he, hf⟩
        · exact Or.inl h
        · exact Or.inr (Or.inl ⟨e1, e2, he, hh1, hh2, Or.inl ⟨ho1, ho2⟩⟩)
        · exact Or.inr (Or.inr ⟨e, he, hf⟩)

/-- C3 counterexample.  A game whose away row lacks TEAM_ID emits exactly
one event (for the home side): the claimed zero-or-two invariant fails,
partial emission does happen. -/
theorem partial_emission_counterexample :
    (eventsOfPair rowHomeA rowAwayNoId).length = 1 := by
  decide

/-- C3 amended.  Every processed game group emits no events, or exactly
two events with opposite outcome and opposite isHome; a single-event
emission can happen, but only when a resolved side is missing its
identifiers (TEAM_ID or TEAM_ABBREVIATION falsy). -/
theorem eventsOfPair_zero_two_or_dropped_side (a b : Row) :
    eventsOfPair a b = [] ∨
      (∃ e1 e2 : GameResultEvent,
        eventsOfPair a b = [e1, e2] ∧
        e1.isHome = true ∧ e2.isHome = false ∧
        ((e1.outcome = "W" ∧ e2.outcome = "L") ∨
          (e1.outcome = "L" ∧ e2.outcome = "W"))) ∨
      (∃ e : GameResultEvent,
        eventsOfPair a b = [e] ∧
        (falsyIdent (resolvedRows a b).1 = true ∨
          falsyIdent (resolvedRows a b).2 = true)) :=
  eventsOfPair_shape a b

/-! ### Win and loss totals (claim C4) -/

/-- Wins after one event update. -/
theorem updStats_wins (s : Stats) (e : GameResultEvent) :
    (updStats s e).wins = s.wins + (if e.outcome = "W" then 1 else 0) := by
  unfold updStats
  by_cases h : e.outcome = "W" <;> simp [h]

/-- Losses after one event update. -/
theorem updStats_losses (s : Stats) (e : GameResultEvent) :
    (updStats s e).losses = s.losses + (if e.outcome = "W" then 0 else 1) := by
  unfold updStats
  by_cases h : e.outcome = "W" <;> simp [h]

/-- Result sequence after one event update. -/
theorem updStats_results (s : Stats) (e : GameResultEvent) :
    (updStats s e).results = s.results ++ [e.outcome] := by
  unfold updStats
  by_cases h : e.outcome = "W" <;> simp [h]

/-- Effect of one event on the total wins. -/
theorem sumWins_applyEvent (ts : List (String × Stats))
    (e : GameResultEvent) :
    sumWins (applyEvent ts e)
      = sumWins ts + (if e.outcome = "W" then 1 else 0) := by
  induction ts with
  | nil =>
    simp [applyEvent, sumWins, updStats_wins, initStats]
  | cons p ts ih =>
    obtain ⟨k, s⟩ := p
    unfold applyEvent
    by_cases h : k = e.teamId
    · rw [if_pos h]
      simp only [sumWins, List.map_cons, List.sum_cons, updStats_wins]
      omega
    · rw [if_neg h]
      simp only [sumWins, List.map_cons, List.sum_cons]
      have ih' := ih
      simp only [sumWins] at ih'
      omega

/-- Effect of one event on the total losses. -/
theorem sumLosses_applyEvent (ts : List (String × Stats))
    (e : GameResultEvent) :
    sumLosses (applyEvent ts e)
      = sumLosses ts + (if e.outcome = "W" then 0 else 1) := by
  induction ts with
  | nil =>
    simp [applyEvent, sumLosses, updStats_losses, initStats]
  | cons p ts ih =>
    obtain ⟨k, s⟩ := p
    unfold applyEvent
    by_cases h : k = e.teamId
    · rw [if_pos h]
      simp only [sumLosses, List.map_cons, List.sum_cons, updStats_losses]
      omega
    · rw [if_neg h]
      simp only [sumLosses, List.map_cons, List.sum_cons]
      have ih' := ih
      simp only [sumLosses] at ih'
      omega

/-- One event update preserves the per-team balance. -/
theorem statsBalanced_upd (s : Stats) (e : GameResultEvent)
    (h : statsBalanced s) : statsBalanced (updStats s e) := by
  unfold statsBalanced at h ⊢
  rw [updStats_wins, updStats_losses, updStats_results,
    List.length_append]
  simp only [List.length_singleton]
  by_cases hw : e.outcome = "W" <;> simp [hw] <;> omega

/-- Applying one event preserves the balance of every entry. -/
theorem balanced_applyEvent (ts : List (String × Stats))
    (e : GameResultEvent) (h : ∀ p ∈ ts, statsBalanced p.2) :
    ∀ p ∈ applyEvent ts e, statsBalanced p.2 := by
  induction ts with
  | nil =>
    intro p hp
    simp only [applyEvent, List.mem_singleton] at hp
    subst hp
    exact statsBalanced_upd _ _ rfl
  | cons q ts ih =>
    obtain ⟨k, s⟩ := q
    intro p hp
    unfold applyEvent at hp
    by_cases hk : k = e.teamId
    · rw [if_pos hk] at hp
      rcases List.mem_cons.mp hp with h1 | h1
      · subst h1
        exact statsBalanced_upd _ _ (h (k, s) (List.mem_cons_self _ _))
      · exact h p (List.mem_cons_of_mem _ h1)
    · rw [if_neg hk] at hp
      rcases List.mem_cons.mp hp with h1 | h1
      · subst h1
        exact h (k, s) (List.mem_cons_self _ _)
      · exact ih (fun q hq => h q (List.mem_cons_of_mem _ hq)) p h1

/-- Folding a list of events preserves the balance of every entry. -/
theorem balanced_foldEvents (events : List GameResultEvent)
    (ts : List (String × Stats)) (h : ∀ p ∈ ts, statsBalanced p.2) :
    ∀ p ∈ events.foldl applyEvent ts, statsBalanced p.2 := by
  induction events generalizing ts with
  | nil => exact h
  | cons e events ih =>
    exact ih (applyEvent ts e) (balanced_applyEvent ts e h)

/-- Case split for processGame: a group that is not an exact pair leaves
the accumulator unchanged, a pair folds its events. -/
theorem processGame_cases (ts : List (String × Stats)) (rows : List Row) :
    processGame ts rows = ts ∨
      ∃ a b : Row, rows = [a, b] ∧
        processGame ts rows = (eventsOfPair a b).foldl applyEvent ts := by
  match rows with
  | [] => exact Or.inl rfl
  | [a] => exact Or.inl rfl
  | [a, b] => exact Or.inr ⟨a, b, rfl, rfl⟩
  | a :: b :: c :: rest => exact Or.inl rfl

/-- Every entry of the final accumulator is balanced. -/
theorem balanced_teamStats (rows : List Row) :
    ∀ p ∈ teamStatsOf rows, statsBalanced p.2 := by
  unfold teamStatsOf
  generalize groupByGid rows = gs
  have main : ∀ (gs : List (String × List Row)) (ts : List (String × Stats)),
      (∀ p ∈ ts, statsBalanced p.2) →
      ∀ p ∈ gs.foldl (fun ts g => processGame ts g.2) ts,
        statsBalanced p.2 := by
    intro gs
    induction gs with
    | nil => intro ts h; exact h
    | cons g gs ih =>
      intro ts h
      simp only [List.foldl_cons]
      refine ih (processGame ts g.2) ?_
      rcases processGame_cases ts g.2 with hc | ⟨a, b, _, hc⟩
      · rw [hc]; exact h
      · rw [hc]; exact balanced_foldEvents _ _ h
  exact main gs [] (by intro p hp; cases hp)

/-- C4 counterexample.  For the input rows of game 7 — a valid home row
and an away row missing TEAM_ID — the aggregated table holds one win and
zero losses in total, so the sum of wins differs from the sum of losses. -/
theorem totals_counterexample :
    sumWins (teamStatsOf [rowHomeA, rowAwayNoId]) = 1 ∧
      sumLosses (teamStatsOf [rowHomeA, rowAwayNoId]) = 0 := by
  constructor <;> rfl

/-- C4 amended.  For every input row set, each team's wins plus losses
equals the number of games counted for that team (the length of its
result sequence); and provided every processed pair resolves to two sides
that both carry identifiers — so no side is dropped — the sum of all
teams' wins equals the sum of all teams' losses. -/
theorem standings_totals (rows : List Row) :
    (∀ p ∈ teamStatsOf rows, p.2.wins + p.2.losses = p.2.results.length) ∧
      ((∀ g ∈ groupByGid rows, ∀ a b : Row, g.2 = [a, b] →
          falsyIdent (resolvedRows a b).1 = false ∧
          falsyIdent (resolvedRows a b).2 = false) →
        sumWins (teamStatsOf rows) = sumLosses (teamStatsOf rows)) := by
  constructor
  · exact balanced_teamStats rows
  · intro hgood
    unfold teamStatsOf
    have main : ∀ (gs : List (String × List Row)) (ts : List (String × Stats)),
        (∀ g ∈ gs, ∀ a b : Row, g.2 = [a, b] →
          falsyIdent (resolvedRows a b).1 = false ∧
          falsyIdent (resolvedRows a b).2 = false) →
        sumWins ts = sumLosses ts →
        sumWins (gs.foldl (fun ts g => processGame ts g.2) ts)
          = sumLosses (gs.foldl (fun ts g => processGame ts g.2) ts) := by
      intro gs
      induction gs with
      | nil => intro ts _ h; exact h
      | cons g gs ih =>
        intro ts hg h
        simp only [List.foldl_cons]
        refine ih (processGame ts g.2)
          (fun q hq => hg q (List.mem_cons_of_mem _ hq)) ?_
        rcases processGame_cases ts g.2 with hc | ⟨a, b, hab, hc⟩
        · rw [hc]; exact h
        · rw [hc]
          obtain ⟨hf1, hf2⟩ := hg g (List.mem_cons_self _ _) a b hab
          rcases eventsOfPair_shape a b with he | ⟨e1, e2, he, _, _, ho⟩ |
              ⟨e, _, hf⟩
          · rw [he]; exact h
          · rw [he]
            simp only [List.foldl_cons, List.foldl_nil]
            rw [sumWins_applyEvent, sumWins_applyEvent,
              sumLosses_applyEvent, sumLosses_applyEvent]
            have w1 : (if ("W" : String) = "W" then (1 : Nat) else 0) = 1 := rfl
            have w0 : (if ("L" : String) = "W" then (1 : Nat) else 0) = 0 := rfl
            have l0 : (if ("W" : String) = "W" then (0 : Nat) else 1) = 0 := rfl
            have l1 : (if ("L" : String) = "W" then (0 : Nat) else 1) = 1 := rfl
            rcases ho with ⟨h1, h2⟩ | ⟨h1, h2⟩ <;> rw [h1, h2, w1, w0, l0, l1] <;>
              omega
          · rcases hf with hf | hf
            · rw [hf1] at hf; cases hf
            · rw [hf2] at hf; cases hf
    exact main (groupByGid rows) [] hgood rfl

/-- Witness for the amended C4: a single well-formed game between Alphas
and Betas yields a balanced table with one win and one loss in total. -/
theorem standings_totals_witness :
    (∀ p ∈ teamStatsOf [rowHomeA, rowAwayB],
        p.2.wins + p.2.losses = p.2.results.length) ∧
      sumWins (teamStatsOf [rowHomeA, rowAwayB])
        = sumLosses (teamStatsOf [rowHomeA, rowAwayB]) := by
  have h := standings_totals [rowHomeA, rowAwayB]
  refine ⟨h.1, h.2 ?_⟩
  intro g hg a b hab
  have hgrp : groupByGid [rowHomeA, rowAwayB]
      = [("7", [rowHomeA, rowAwayB])] := rfl
  rw [hgrp] at hg
  have hgs : g = ("7", [rowHomeA, rowAwayB]) := by
    simpa using hg
  subst hgs
  simp only at hab
  obtain ⟨ha, hb⟩ := List.cons_eq_cons.mp hab
  obtain ⟨hb, -⟩ := List.cons_eq_cons.mp hb
  subst ha
  subst hb
  exact ⟨by decide, by decide⟩

/-- C9.  A missing, None or empty goals field on either resolved side of a
row pair is treated as the score 0, not as an unparsable score: when the
other side parses to a nonzero score and both sides carry identity
fields, the pair is counted as a real win/loss game, emitting a home
event and an away event with opposite outcomes. -/
theorem missing_score_is_zero (a b : Row) (k : Int)
    (hmiss :
      (((resolvedRows a b).1.GOALS = none ∨
          (resolvedRows a b).1.GOALS = some "") ∧
        parseScore (resolvedRows a b).2.GOALS = some k) ∨
      (((resolvedRows a b).2.GOALS = none ∨
          (resolvedRows a b).2.GOALS = some "") ∧
        parseScore (resolvedRows a b).1.GOALS = some k))
    (hk0 : k ≠ 0)
    (hid1 : falsyIdent (resolvedRows a b).1 = false)
    (hid2 : falsyIdent (resolvedRows a b).2 = false) :
    (∀ g : Option String, (g = none ∨ g = some "") →
        parseScore g = some 0) ∧
      ∃ e1 e2 : GameResultEvent,
        eventsOfPair a b = [e1, e2] ∧
        e1.isHome = true ∧ e2.isHome = false ∧
        ((e1.outcome = "W" ∧ e2.outcome = "L") ∨
          (e1.outcome = "L" ∧ e2.outcome = "W")) := by
  have hzero : ∀ g : Option String, (g = none ∨ g = some "") →
      parseScore g = some 0 := by
    intro g hgz
    rcases hgz with h | h <;> rw [h] <;> rfl
  refine ⟨hzero, ?_⟩
  rcases hmiss with ⟨hg, hk⟩ | ⟨hg, hk⟩
  · have h0 : parseScore (resolvedRows a b).1.GOALS = some 0 := hzero _ hg
    rw [eventsOfPair_eq_of_scores a b 0 k h0 hk]
    rcases lt_or_gt_of_ne hk0 with hlt | hgt
    · have hcmp : (0 : Int) > k := hlt
      rw [if_pos hcmp]
      simp only [sideEvent, hid1, hid2, Bool.false_eq_true, if_false,
        List.singleton_append]
      exact ⟨_, _, rfl, rfl, rfl, Or.inl ⟨rfl, rfl⟩⟩
    · have hcmp : ¬((0 : Int) > k) := by omega
      rw [if_neg hcmp, if_pos hgt]
      simp only [sideEvent, hid1, hid2, Bool.false_eq_true, if_false,
        List.singleton_append]
      exact ⟨_, _, rfl, rfl, rfl, Or.inr ⟨rfl, rfl⟩⟩
  · have h0 : parseScore (resolvedRows a b).2.GOALS = some 0 := hzero _ hg
    rw [eventsOfPair_eq_of_scores a b k 0 hk h0]
    rcases lt_or_gt_of_ne hk0 with hlt | hgt
    · have hcmp : ¬(k > (0 : Int)) := by omega
      rw [if_neg hcmp, if_pos hlt]
      simp only [sideEvent, hid1, hid2, Bool.false_eq_true, if_false,
        List.singleton_append]
      exact ⟨_, _, rfl, rfl, rfl, Or.inr ⟨rfl, rfl⟩⟩
    · rw [if_pos hgt]
      simp only [sideEvent, hid1, hid2, Bool.false_eq_true, if_false,
        List.singleton_append]
      exact ⟨_, _, rfl, rfl, rfl, Or.inl ⟨rfl, rfl⟩⟩

/-- Witness for C9 at the away-missing case: an away side with no GOALS
field at all against a home side with three goals yields a home win event
and an away loss event. -/
theorem missing_score_is_zero_witness :
    (∀ g : Option String, (g = none ∨ g = some "") →
        parseScore g = some 0) ∧
      ∃ e1 e2 : GameResultEvent,
        eventsOfPair
          { GAME_ID := some "1", TEAM_ID := some "10",
            TEAM_ABBREVIATION := some "AAA", MATCHUP := some "BBB @ AAA",
            GOALS := some "3" }
          { GAME_ID := some "1", TEAM_ID := some "20",
            TEAM_ABBREVIATION := some "BBB", MATCHUP := some "BBB @ AAA" }
          = [e1, e2] ∧
        e1.isHome = true ∧ e2.isHome = false ∧
        ((e1.outcome = "W" ∧ e2.outcome = "L") ∨
          (e1.outcome = "L" ∧ e2.outcome = "W")) :=
  missing_score_is_zero
    { GAME_ID := some "1", TEAM_ID := some "10",
      TEAM_ABBREVIATION := some "AAA", MATCHUP := some "BBB @ AAA",
      GOALS := some "3" }
    { GAME_ID := some "1", TEAM_ID := some "20",
      TEAM_ABBREVIATION := some "BBB", MATCHUP := some "BBB @ AAA" }
    3 (Or.inr ⟨Or.inl (by decide), by decide⟩) (by decide) (by decide)
    (by decide)

/-! ### Sort order of the standings table (claim C2) -/

/-- Comparison with the empty character list. -/
theorem charListLe_nil (b : List Char) : charListLe [] b = true := by
  cases b <;> rfl

/-- Totality of the code-point lexicographic comparison. -/
theorem charListLe_total (a b : List Char) :
    charListLe a b = true ∨ charListLe b a = true := by
  induction a generalizing b with
  | nil => exact Or.inl (charListLe_nil b)
  | cons x xs ih =>
    cases b with
    | nil => exact Or.inr rfl
    | cons y ys =>
      rcases lt_trichotomy x y with h | h | h
      · left
        unfold charListLe
        rw [if_pos h]
      · subst h
        rcases ih ys with h1 | h1
        · left
          unfold charListLe
          rw [if_neg (lt_irrefl x), if_neg (lt_irrefl x)]
          exact h1
        · right
          unfold charListLe
          rw [if_neg (lt_irrefl x), if_neg (lt_irrefl x)]
          exact h1
      · right
        unfold charListLe
        rw [if_pos h]

/-- Transitivity of the code-point lexicographic comparison. -/
theorem charListLe_trans (a b c : List Char)
    (h1 : charListLe a b = true) (h2 : charListLe b c = true) :
    charListLe a c = true := by
  induction a generalizing b c with
  | nil => exact charListLe_nil c
  | cons x xs ih =>
    cases b with
    | nil => cases h1
    | cons y ys =>
      cases c with
      | nil => cases h2
      | cons z zs =>
        unfold charListLe at h1 h2 ⊢
        rcases lt_trichotomy x y with hxy | hxy | hxy
        · rw [if_pos hxy] at h1
          rcases lt_trichotomy y z with hyz | hyz | hyz
          · rw [if_pos (lt_trans hxy hyz)]
          · subst hyz
            rw [if_pos hxy]
          · rw [if_neg (not_lt_of_gt hyz), if_pos hyz] at h2
            cases h2
        · subst hxy
          rw [if_neg (lt_irrefl x), if_neg (lt_irrefl x)] at h1
          rcases lt_trichotomy x z with hxz | hxz | hxz
          · rw [if_pos hxz]
          · subst hxz
            rw [if_neg (lt_irrefl x), if_neg (lt_irrefl x)] at h2 ⊢
            exact ih ys zs h1 h2
          · rw [if_neg (not_lt_of_gt hxz), if_pos hxz] at h2
            cases h2
        · rw [if_neg (not_lt_of_gt hxy), if_pos hxy] at h1
          cases h1

/-- Antisymmetry of the code-point lexicographic comparison. -/
theorem charListLe_antisymm (a b : List Char)
    (h1 : charListLe a b = true) (h2 : charListLe b a = true) : a = b := by
  induction a generalizing b with
  | nil =>
    cases b with
    | nil => rfl
    | cons y ys => cases h2
  | cons x xs ih =>
    cases b with
    | nil => cases h1
    | cons y ys =>
      unfold charListLe at h1 h2
      rcases lt_trichotomy x y with hxy | hxy | hxy
      · rw [if_neg (not_lt_of_gt hxy), if_pos hxy] at h2
        cases h2
      · subst hxy
        rw [if_neg (lt_irrefl x), if_neg (lt_irrefl x)] at h1 h2
        rw [ih ys h1 h2]
      · rw [if_neg (not_lt_of_gt hxy), if_pos hxy] at h1
        cases h1

/-- Totality of strLe. -/
theorem strLe_total (s t : String) :
    strLe s t = true ∨ strLe t s = true :=
  charListLe_total s.data t.data

/-- Transitivity of strLe. -/
theorem strLe_trans (s t u : String)
    (h1 : strLe s t = true) (h2 : strLe t u = true) : strLe s u = true :=
  charListLe_trans s.data t.data u.data h1 h2

/-- Antisymmetry of strLe. -/
theorem strLe_antisymm (s t : String)
    (h1 : strLe s t = true) (h2 : strLe t s = true) : s = t := by
  cases s
  cases t
  exact congrArg String.mk (charListLe_antisymm _ _ h1 h2)

/-- Elimination form of the sort-key comparison. -/
theorem keyLe_cases (r s : StandingsRow) (h : keyLe r s = true) :
    s.win_pct < r.win_pct ∨
      (r.win_pct = s.win_pct ∧
        (s.wins < r.wins ∨
          (r.wins = s.wins ∧ strLe (nameOf r) (nameOf s) = true))) := by
  unfold keyLe at h
  split_ifs at h with h1 h2 h3 h4
  · exact Or.inl h1
  · exact Or.inr ⟨h2, Or.inl h3⟩
  · exact Or.inr ⟨h2, Or.inr ⟨h4, h⟩⟩

/-- Introduction form of the sort-key comparison. -/
theorem keyLe_intro (r s : StandingsRow)
    (h : s.win_pct < r.win_pct ∨
      (r.win_pct = s.win_pct ∧
        (s.wins < r.wins ∨
          (r.wins = s.wins ∧ strLe (nameOf r) (nameOf s) = true)))) :
    keyLe r s = true := by
  unfold keyLe
  rcases h with h | ⟨hp, h⟩
  · rw [if_pos h]
  · rw [if_neg (by rw [hp]; exact lt_irrefl _), if_pos hp]
    rcases h with h | ⟨hw, hn⟩
    · rw [if_pos h]
    · rw [if_neg (by omega), if_pos hw]
      exact hn

/-- Totality of the sort-key comparison. -/
theorem keyLe_total (r s : StandingsRow) :
    keyLe r s = true ∨ keyLe s r = true := by
  rcases lt_trichotomy r.win_pct s.win_pct with hp | hp | hp
  · exact Or.inr (keyLe_intro s r (Or.inl hp))
  · rcases lt_trichotomy r.wins s.wins with hw | hw | hw
    · exact Or.inr (keyLe_intro s r (Or.inr ⟨hp.symm, Or.inl hw⟩))
    · rcases strLe_total (nameOf r) (nameOf s) with hn | hn
      · exact Or.inl (keyLe_intro r s (Or.inr ⟨hp, Or.inr ⟨hw, hn⟩⟩))
      · exact Or.inr
          (keyLe_intro s r (Or.inr ⟨hp.symm, Or.inr ⟨hw.symm, hn⟩⟩))
    · exact Or.inl (keyLe_intro r s (Or.inr ⟨hp, Or.inl hw⟩))
  · exact Or.inl (keyLe_intro r s (Or.inl hp))

/-- Transitivity of the sort-key comparison. -/
theorem keyLe_trans (a b c : StandingsRow)
    (h1 : keyLe a b = true) (h2 : keyLe b c = true) : keyLe a c = true := by
  rcases keyLe_cases a b h1 with hp1 | ⟨hp1, hw1⟩
  · rcases keyLe_cases b c h2 with hp2 | ⟨hp2, _⟩
    · exact keyLe_intro a c (Or.inl (lt_trans hp2 hp1))
    · exact keyLe_intro a c (Or.inl (by rw [← hp2]; exact hp1))
  · rcases keyLe_cases b c h2 with hp2 | ⟨hp2, hw2⟩
    · exact keyLe_intro a c (Or.inl (by rw [hp1]; exact hp2))
    · have hp : a.win_pct = c.win_pct := hp1.trans hp2
      rcases hw1 with hw1 | ⟨hw1, hn1⟩
      · rcases hw2 with hw2 | ⟨hw2, _⟩
        · exact keyLe_intro a c (Or.inr ⟨hp, Or.inl (lt_trans hw2 hw1)⟩)
        · exact keyLe_intro a c (Or.inr ⟨hp, Or.inl (by omega)⟩)
      · rcases hw2 with hw2 | ⟨hw2, hn2⟩
        · exact keyLe_intro a c (Or.inr ⟨hp, Or.inl (by omega)⟩)
        · exact keyLe_intro a c (Or.inr ⟨hp, Or.inr ⟨hw1.trans hw2,
            strLe_trans _ _ _ hn1 hn2⟩⟩)

/-- Mutual comparability forces equal sort keys. -/
theorem keyLe_antisymm_key (r s : StandingsRow)
    (h1 : keyLe r s = true) (h2 : keyLe s r = true) :
    r.win_pct = s.win_pct ∧ r.wins = s.wins ∧ nameOf r = nameOf s := by
  rcases keyLe_cases r s h1 with hp1 | ⟨hp1, hw1⟩
  · rcases keyLe_cases s r h2 with hp2 | ⟨hp2, _⟩
    · exact absurd hp1 (not_lt_of_gt hp2)
    · exact absurd hp1 (by rw [hp2]; exact lt_irrefl _)
  · rcases keyLe_cases s r h2 with hp2 | ⟨_, hw2⟩
    · exact absurd hp2 (by rw [hp1]; exact lt_irrefl _)
    · refine ⟨hp1, ?_⟩
      rcases hw1 with hw1 | ⟨hw1, hn1⟩
      · rcases hw2 with hw2 | ⟨hw2, _⟩
        · omega
        · omega
      · rcases hw2 with hw2 | ⟨hw2, hn2⟩
        · omega
        · exact ⟨hw1, strLe_antisymm _ _ hn1 hn2⟩

/-- C2.  The standings table produced from a readable CSV is a permutation
of the built rows arranged so that consecutive rows satisfy the sort key
(win percentage descending, then wins descending, then team name ascending
with a missing name read as the empty string); between rows of equal win
percentage and equal wins the comparison is exactly the code-point
lexicographic name order, so the lexicographically smaller name comes
first and the empty name sorts first; and the comparison is total, two
rows each preceding the other being forced to share percentage, wins and
name. -/
theorem standings_sort_spec (rows : List Row) :
    List.Pairwise (fun r s => keyLe r s = true)
        (compute_standings_from_csv (some rows)).1 ∧
      (compute_standings_from_csv (some rows)).1.Perm
        ((teamStatsOf rows).map (fun p => rowOfStats p.2)) ∧
      (∀ r s : StandingsRow, r.win_pct = s.win_pct → r.wins = s.wins →
        (keyLe r s = true ↔ strLe (nameOf r) (nameOf s) = true)) ∧
      (∀ r s : StandingsRow, keyLe r s = true → keyLe s r = true →
        r.win_pct = s.win_pct ∧ r.wins = s.wins ∧ nameOf r = nameOf s) ∧
      (∀ r s : StandingsRow, keyLe r s = true ∨ keyLe s r = true) ∧
      (∀ r s : StandingsRow, r.win_pct = s.win_pct → r.wins = s.wins →
        nameOf r = "" → keyLe r s = true) := by
  refine ⟨?_, ?_, ?_, keyLe_antisymm_key, keyLe_total, ?_⟩
  · exact List.sorted_mergeSort keyLe_trans
      (fun a b => by
        rcases keyLe_total a b with h | h
        · rw [h]; rfl
        · rw [h]; exact Bool.or_true _) _
  · exact List.mergeSort_perm _ _
  · intro r s hp hw
    constructor
    · intro h
      rcases keyLe_cases r s h with h1 | ⟨_, h1⟩
      · exact absurd h1 (by rw [hp]; exact lt_irrefl _)
      · rcases h1 with h1 | ⟨_, h1⟩
        · omega
        · exact h1
    · intro h
      exact keyLe_intro r s (Or.inr ⟨hp, Or.inr ⟨hw, h⟩⟩)
  · intro r s hp hw he
    refine keyLe_intro r s (Or.inr ⟨hp, Or.inr ⟨hw, ?_⟩⟩)
    rw [he]
    exact charListLe_nil _

/-- Witness for C2: between two concrete rows with equal win percentage
and equal wins the sort order agrees with the lexicographic name order. -/
theorem standings_sort_spec_witness :
    keyLe
        { team_id := none, tricode := "AAA", team := some "Alphas",
          city := "", name := some "Alphas", conf := "", wins := 0,
          losses := 0, win_pct := 0, home_w := 0, home_l := 0, road_w := 0,
          road_l := 0, streak := "", streak_home := "", streak_away := "" }
        { team_id := none, tricode := "BBB", team := some "Betas",
          city := "", name := some "Betas", conf := "", wins := 0,
          losses := 0, win_pct := 0, home_w := 0, home_l := 0, road_w := 0,
          road_l := 0, streak := "", streak_home := "", streak_away := "" }
        = true ↔
      strLe
        (nameOf
          { team_id := none, tricode := "AAA", team := some "Alphas",
            city := "", name := some "Alphas", conf := "", wins := 0,
            losses := 0, win_pct := 0, home_w := 0, home_l := 0,
            road_w := 0, road_l := 0, streak := "", streak_home := "",
            streak_away := "" })
        (nameOf
          { team_id := none, tricode := "BBB", team := some "Betas",
            city := "", name := some "Betas", conf := "", wins := 0,
            losses := 0, win_pct := 0, home_w := 0, home_l := 0,
            road_w := 0, road_l := 0, streak := "", streak_home := "",
            streak_away := "" }) = true :=
  (standings_sort_spec []).2.2.1 _ _ rfl rfl

/-! ### The standings endpoint (claim C10) -/

/-- Groups with no valid pair leave the accumulator untouched. -/
theorem processGame_of_no_events (ts : List (String × Stats))
    (grp : List Row)
    (h : ∀ a b : Row, grp = [a, b] → eventsOfPair a b = []) :
    processGame ts grp = ts := by
  rcases processGame_cases ts grp with hc | ⟨a, b, hab, hc⟩
  · exact hc
  · rw [hc, h a b hab]
    rfl

/-- With no valid pair in any group the accumulator stays empty. -/
theorem teamStatsOf_of_no_events (rows : List Row)
    (h : ∀ g ∈ groupByGid rows, ∀ a b : Row, g.2 = [a, b] →
      eventsOfPair a b = []) :
    teamStatsOf rows = [] := by
  unfold teamStatsOf
  have main : ∀ (gs : List (String × List Row)),
      (∀ g ∈ gs, ∀ a b : Row, g.2 = [a, b] → eventsOfPair a b = []) →
      ∀ ts : List (String × Stats),
        gs.foldl (fun ts g => processGame ts g.2) ts = ts := by
    intro gs
    induction gs with
    | nil => intro _ ts; rfl
    | cons g gs ih =>
      intro hg ts
      simp only [List.foldl_cons]
      rw [processGame_of_no_events ts g.2 (hg g (List.mem_cons_self _ _))]
      exact ih (fun q hq => hg q (List.mem_cons_of_mem _ hq)) ts
  exact main (groupByGid rows) h []

/-- C10.  The standings endpoint reports ok = true exactly when the row
list is nonempty; and on a readable CSV whose groups contain no valid game
pair the endpoint returns ok = false with an empty row list and an empty
warnings list. -/
theorem api_standings_ok_iff :
    (∀ input : Option (List Row),
      (api_standings input).ok = true ↔ (api_standings input).rows ≠ []) ∧
      (∀ rows : List Row,
        (∀ g ∈ groupByGid rows, ∀ a b : Row, g.2 = [a, b] →
          eventsOfPair a b = []) →
        api_standings (some rows)
          = { ok := false, rows := [], warnings := [] }) := by
  constructor
  · intro input
    show (!(compute_standings_from_csv input).1.isEmpty) = true ↔
      (compute_standings_from_csv input).1 ≠ []
    cases (compute_standings_from_csv input).1 <;> simp
  · intro rows h
    have hts : teamStatsOf rows = [] := teamStatsOf_of_no_events rows h
    simp only [api_standings, compute_standings_from_csv]
    rw [hts]
    simp [List.mergeSort_nil]

/-- Witness for C10: a CSV whose single game group holds only one row has
no valid pair, and the endpoint answers ok = false, no rows, no
warnings. -/
theorem api_standings_ok_iff_witness :
    api_standings (some [rowHomeA])
      = { ok := false, rows := [], warnings := [] } := by
  refine api_standings_ok_iff.2 [rowHomeA] ?_
  intro g hg a b hab
  have hgrp : groupByGid [rowHomeA] = [("7", [rowHomeA])] := rfl
  rw [hgrp] at hg
  have hgs : g = ("7", [rowHomeA]) := by simpa using hg
  subst hgs
  simp only at hab
  exact absurd hab (by simp)

end NHLDash
